import Mathlib

/-!
Shallow embedding of the gesturine-controller core: the per-frame gesture
detector (`GestureDetector`), the temporal stabilizer
(`updateGestureHistory` / `smoothGestureDetection`), the actuation service
(`GestureDetectionService`) and the key-pulse routine
(`RobotService.simulateKeyPress`). Numbers are modelled as rationals;
JavaScript property access on a possibly-undefined array element is
modelled by `Option` (a `none` models the thrown `TypeError`).
-/

/-- One hand landmark: a 3-D point in normalized image space. -/
structure Landmark where
  x : ℚ
  y : ℚ
  z : ℚ
deriving DecidableEq

/-- Per-finger extension flag, as produced by `getFingerStates`. -/
structure FingerState where
  name : String
  extended : Bool
deriving DecidableEq

/-- Result of gesture classification for one hand in one frame
(fields `type`, `confidence`, `handedness` of the source's `GestureResult`). -/
structure GestureResult where
  type : String
  confidence : ℚ
  handedness : String
deriving DecidableEq

/-- Subtraction on `ℚ` written through `mkRat` so that the kernel can evaluate it
on concrete inputs (`Rat.sub` is irreducible); `ratSub_eq` shows it is ordinary
subtraction. -/
def ratSub (a b : ℚ) : ℚ := mkRat (a.num * b.den - b.num * a.den) (a.den * b.den)

/-- Multiplication on `ℚ` through `mkRat`; `ratMul_eq` shows it is ordinary
multiplication. -/
def ratMul (a b : ℚ) : ℚ := mkRat (a.num * b.num) (a.den * b.den)

/-- Addition on `ℚ` through `mkRat`; `ratAdd_eq` shows it is ordinary addition. -/
def ratAdd (a b : ℚ) : ℚ := mkRat (a.num * b.den + b.num * a.den) (a.den * b.den)

/-- Minimum confidence for gesture detection (`this.gestureThreshold = 0.8`). -/
def gestureThreshold : ℚ := mkRat 8 10

/-- Source `isFingerExtended`: tip is above the PIP joint (`tip.y < pip.y`).
Out-of-range index access yields `none` (a thrown `TypeError` in JS). -/
def isFingerExtended (landmarks : List Landmark) (tipIndex pipIndex : Nat) : Option Bool := do
  let tip ← landmarks.get? tipIndex
  let pip ← landmarks.get? pipIndex
  return decide (tip.y < pip.y)

/-- Source `isThumbExtended`: thumb tip is to the right of the MCP joint
(`thumbTip.x > thumbMcp.x`). -/
def isThumbExtended (landmarks : List Landmark) : Option Bool := do
  let thumbTip ← landmarks.get? 4
  let thumbMcp ← landmarks.get? 2
  return decide (thumbMcp.x < thumbTip.x)

/-- Source `getFingerStates`: the five named extension flags. -/
def getFingerStates (landmarks : List Landmark) : Option (List FingerState) := do
  let thumb ← isThumbExtended landmarks
  let index ← isFingerExtended landmarks 8 6
  let middle ← isFingerExtended landmarks 12 10
  let ring ← isFingerExtended landmarks 16 14
  let pinky ← isFingerExtended landmarks 20 18
  return [⟨"thumb", thumb⟩, ⟨"index", index⟩, ⟨"middle", middle⟩,
          ⟨"ring", ring⟩, ⟨"pinky", pinky⟩]

/-- Source `detectFist`: no finger extended. -/
def detectFist (fingers : List FingerState) : Option (Bool × ℚ) :=
  let extendedCount := (fingers.filter (fun f => f.extended)).length
  some (decide (extendedCount = 0), if extendedCount = 0 then mkRat 95 100 else mkRat 2 10)

/-- Source `detectOpenPalm`: all five fingers extended. -/
def detectOpenPalm (fingers : List FingerState) : Option (Bool × ℚ) :=
  let extendedCount := (fingers.filter (fun f => f.extended)).length
  some (decide (extendedCount = 5), if extendedCount = 5 then mkRat 95 100 else mkRat 2 10)

/-- Source `detectPointing`: only the index finger extended. -/
def detectPointing (fingers : List FingerState) : Option (Bool × ℚ) := do
  let indexF ← fingers.get? 1
  let otherFingersExtended :=
    (fingers.enum.filter (fun p => p.1 ≠ 1 ∧ p.2.extended)).length
  return (decide (indexF.extended = true ∧ otherFingersExtended = 0),
          if indexF.extended = true ∧ otherFingersExtended = 0 then mkRat 9 10 else mkRat 3 10)

/-- Source `detectPeaceSign`: index and middle extended, others not. -/
def detectPeaceSign (fingers : List FingerState) : Option (Bool × ℚ) := do
  let indexF ← fingers.get? 1
  let middleF ← fingers.get? 2
  let otherFingersExtended :=
    (fingers.enum.filter (fun p => p.1 ≠ 1 ∧ p.1 ≠ 2 ∧ p.2.extended)).length
  return (decide (indexF.extended = true ∧ middleF.extended = true ∧ otherFingersExtended = 0),
          if indexF.extended = true ∧ middleF.extended = true ∧ otherFingersExtended = 0
          then mkRat 9 10 else mkRat 3 10)

/-- Source `detectThumbsUp`: only the thumb extended and the thumb tip above the wrist. -/
def detectThumbsUp (fingers : List FingerState) (landmarks : List Landmark) :
    Option (Bool × ℚ) := do
  let thumbF ← fingers.get? 0
  let otherFingersExtended :=
    (fingers.enum.filter (fun p => p.1 ≠ 0 ∧ p.2.extended)).length
  let thumbTip ← landmarks.get? 4
  let wrist ← landmarks.get? 0
  let cond := thumbF.extended = true ∧ otherFingersExtended = 0 ∧ thumbTip.y < wrist.y
  return (decide cond, if cond then mkRat 9 10 else mkRat 3 10)

/-- Source `detectThumbsDown`: only the thumb extended and the thumb tip below the wrist. -/
def detectThumbsDown (fingers : List FingerState) (landmarks : List Landmark) :
    Option (Bool × ℚ) := do
  let thumbF ← fingers.get? 0
  let otherFingersExtended :=
    (fingers.enum.filter (fun p => p.1 ≠ 0 ∧ p.2.extended)).length
  let thumbTip ← landmarks.get? 4
  let wrist ← landmarks.get? 0
  let cond := thumbF.extended = true ∧ otherFingersExtended = 0 ∧ wrist.y < thumbTip.y
  return (decide cond, if cond then mkRat 9 10 else mkRat 3 10)

/-- Source `detectOkSign`: thumb and index tips touching (Euclidean distance below
0.05, expressed on squares since both sides are nonnegative) and the remaining
three fingers extended. -/
def detectOkSign (fingers : List FingerState) (landmarks : List Landmark) :
    Option (Bool × ℚ) := do
  let thumbTip ← landmarks.get? 4
  let indexTip ← landmarks.get? 8
  let dx := ratSub thumbTip.x indexTip.x
  let dy := ratSub thumbTip.y indexTip.y
  let distanceSq := ratAdd (ratMul dx dx) (ratMul dy dy)
  let isCircle := distanceSq < ratMul (mkRat 5 100) (mkRat 5 100)
  let otherFingersExtended :=
    (fingers.enum.filter (fun p => p.1 ≠ 0 ∧ p.1 ≠ 1 ∧ p.2.extended)).length
  return (decide (isCircle ∧ otherFingersExtended = 3),
          if isCircle ∧ otherFingersExtended = 3 then mkRat 85 100 else mkRat 3 10)

/-- Source `detectRockOn`: thumb, index and pinky extended, middle and ring not. -/
def detectRockOn (fingers : List FingerState) : Option (Bool × ℚ) := do
  let thumbF ← fingers.get? 0
  let indexF ← fingers.get? 1
  let middleF ← fingers.get? 2
  let ringF ← fingers.get? 3
  let pinkyF ← fingers.get? 4
  let cond := indexF.extended = true ∧ pinkyF.extended = true ∧ thumbF.extended = true ∧
      middleF.extended = false ∧ ringF.extended = false
  return (decide cond, if cond then mkRat 85 100 else mkRat 3 10)

/-- The fixed ordered check list of `detectGesture` (`gestureChecks`). -/
def gestureChecks (fingers : List FingerState) (landmarks : List Landmark) :
    List (String × Option (Bool × ℚ)) :=
  [("fist", detectFist fingers),
   ("open_palm", detectOpenPalm fingers),
   ("pointing", detectPointing fingers),
   ("peace_sign", detectPeaceSign fingers),
   ("thumbs_up", detectThumbsUp fingers landmarks),
   ("thumbs_down", detectThumbsDown fingers landmarks),
   ("ok_sign", detectOkSign fingers landmarks),
   ("rock_on", detectRockOn fingers)]

/-- The `for`-loop of `detectGesture`: the first check whose `detected` is true and
whose confidence exceeds the threshold wins; if none does, the result is the
source's `null` (modelled `none` inside the outer `Option`). -/
def firstPassing (handedness : String) :
    List (String × Option (Bool × ℚ)) → Option (Option GestureResult)
  | [] => some none
  | (ty, chk) :: rest => do
      let r ← chk
      if r.1 = true ∧ gestureThreshold < r.2 then
        some (some { type := ty, confidence := r.2, handedness := handedness })
      else
        firstPassing handedness rest

/-- Source `detectGesture`: finger states, then the ordered short-circuit check
list. The outer `Option` is `none` exactly when a JS property access on an
undefined array element would throw. -/
def detectGesture (landmarks : List Landmark) (handedness : String) :
    Option (Option GestureResult) := do
  let fingers ← getFingerStates landmarks
  firstPassing handedness (gestureChecks fingers landmarks)

/-- Temporal-stabilizer state: `gestureHistory` and `lastGesture` of `GestureDetector`. -/
structure StabState where
  gestureHistory : List GestureResult
  lastGesture : Option String
deriving DecidableEq

/-- Constructor state of `GestureDetector`: empty history, no last gesture. -/
def initialStabState : StabState := { gestureHistory := [], lastGesture := none }

/-- Source `smoothGestureDetection`: if the history holds at least 3 samples and the
most recent 3 share one type that differs from `lastGesture`, record it and emit
the first sample of the recent window. -/
def smoothGestureDetection (s : StabState) : StabState × Option GestureResult :=
  if s.gestureHistory.length < 3 then (s, none)
  else
    let recentGestures := s.gestureHistory.drop (s.gestureHistory.length - 3)
    let gestureTypes := recentGestures.map (fun g => g.type)
    match gestureTypes.head? with
    | none => (s, none)
    | some t0 =>
        let consistentGesture := gestureTypes.all (fun ty => ty = t0)
        if consistentGesture = true ∧ s.lastGesture ≠ some t0 then
          ({ s with lastGesture := some t0 }, recentGestures.head?)
        else (s, none)

/-- History cap of `updateGestureHistory` (`maxHistory = 5`). -/
def maxHistory : Nat := 5

/-- Source `updateGestureHistory`: if the frame produced gestures, push the first
one, cap the history at 5 (FIFO) and run the smoothing step. -/
def updateGestureHistory (s : StabState) (gestures : List GestureResult) :
    StabState × Option GestureResult :=
  match gestures with
  | [] => (s, none)
  | g :: _ =>
      let pushed := s.gestureHistory ++ [g]
      let hist := if maxHistory < pushed.length then pushed.tail else pushed
      smoothGestureDetection { s with gestureHistory := hist }

/-- Run the stabilizer over a list of frames (each frame is the gesture list
returned by `processHandLandmarks`), collecting the per-frame emission. -/
def processFrames (s : StabState) : List (List GestureResult) → StabState × List (Option GestureResult)
  | [] => (s, [])
  | frame :: rest =>
      let step := updateGestureHistory s frame
      let tail := processFrames step.1 rest
      (tail.1, step.2 :: tail.2)

/-- Source `Keybinding` of `useGestureStore`. -/
structure Keybinding where
  id : Nat
  gesture : String
  keyBinding : String
  description : String
  enabled : Bool
  hand : String
deriving DecidableEq

/-- Observable primitive effects of the actuation service and its timer. -/
inductive SvcAction where
  | clearTimer (id : Nat)
  | startTimer (id : Nat) (binding : Keybinding)
  | actuate (key : String)
deriving DecidableEq

/-- State of `GestureDetectionService`. The interval handle carries the
`Keybinding` captured by the `setInterval` closure; `timerCounter` supplies
fresh timer ids. -/
structure ServiceState where
  activeGesture : Option String
  activeKeyInterval : Option (Nat × Keybinding)
  activeBindings : String → Option Keybinding
  isServiceActive : Bool
  timerCounter : Nat

/-- Map built by `updateActiveBindings`: clear, then `set(binding.gesture, binding)`
for each enabled binding in list order (a later binding overwrites an earlier
one with the same gesture key). -/
def buildActiveBindings (bindings : List Keybinding) : String → Option Keybinding :=
  bindings.foldl
    (fun m b => if b.enabled = true then fun g => if g = b.gesture then some b else m g else m)
    (fun _ => none)

/-- Source `GestureDetectionService.updateActiveBindings`. -/
def updateActiveBindings (s : ServiceState) (bindings : List Keybinding) : ServiceState :=
  { s with activeBindings := buildActiveBindings bindings }

/-- Source `GestureDetectionService.start`. -/
def serviceStart (s : ServiceState) : ServiceState :=
  { s with isServiceActive := true }

/-- Source `stopGestureKeyPress`: clear the interval if present and forget the
active gesture. -/
def stopGestureKeyPress (s : ServiceState) : ServiceState × List SvcAction :=
  match s.activeKeyInterval with
  | some ib =>
      ({ s with activeKeyInterval := none, activeGesture := none },
       [SvcAction.clearTimer ib.1])
  | none => ({ s with activeGesture := none }, [])

/-- Source `handleGestureDetected`: ignore when inactive or unchanged; otherwise
stop the running key press, then (for a non-null gesture with an enabled binding
whose hand constraint passes) start a fresh repeat interval. -/
def handleGestureDetected (s : ServiceState) (gesture : Option String) (hand : String) :
    ServiceState × List SvcAction :=
  if s.isServiceActive = false then (s, [])
  else if gesture = s.activeGesture then (s, [])
  else
    let stopped := stopGestureKeyPress s
    match gesture with
    | none => stopped
    | some g =>
        match stopped.1.activeBindings g with
        | none => stopped
        | some binding =>
            if binding.hand ≠ "any" ∧ binding.hand ≠ hand then stopped
            else
              ({ stopped.1 with
                  activeGesture := some g,
                  activeKeyInterval := some (stopped.1.timerCounter, binding),
                  timerCounter := stopped.1.timerCounter + 1 },
               stopped.2 ++ [SvcAction.startTimer stopped.1.timerCounter binding])

/-- One firing of the live repeat interval: the `setInterval` closure calls
`keybindingService.simulateKeyPress(binding.keyBinding)` for the captured binding. -/
def tickActions (s : ServiceState) : List SvcAction :=
  match s.activeKeyInterval with
  | some ib => [SvcAction.actuate ib.2.keyBinding]
  | none => []

/-- Source `useGestureStore.setActiveProfile`: push the new profile's bindings into
the service and start it (nothing else touches the service). -/
def setActiveProfileService (s : ServiceState) (bindings : List Keybinding) : ServiceState :=
  serviceStart (updateActiveBindings s bindings)

/-- Binding resolution as the source composes it: the map lookup of
`handleGestureDetected` over the map built by `updateActiveBindings`, followed by
the hand-constraint guard. -/
def resolveBinding (bindings : List Keybinding) (gesture hand : String) : Option Keybinding :=
  match buildActiveBindings bindings gesture with
  | none => none
  | some binding =>
      if binding.hand ≠ "any" ∧ binding.hand ≠ hand then none else some binding

/-- Modelled from the spec (for comparison only): return the first enabled
binding in list order whose gesture type matches and whose hand constraint is
`any` or equals the event handedness. -/
def resolveBindingSpec (bindings : List Keybinding) (gesture hand : String) : Option Keybinding :=
  bindings.find? (fun b =>
    b.enabled && b.gesture == gesture && (b.hand == "any" || b.hand == hand))

/-- Primitive key operations of `RobotService`. -/
inductive KeyAction where
  | keyDown (key : String)
  | keyUp (key : String)
  | keyTap (key : String)
deriving DecidableEq

/-- Model of JS `split('+')` on a character list, by structural recursion so the
kernel can evaluate it on literals. -/
def splitPlus : List Char → List (List Char)
  | [] => [[]]
  | c :: cs =>
      let rest := splitPlus cs
      if c = '+' then [] :: rest
      else
        match rest with
        | [] => [[c]]
        | r :: rs => (c :: r) :: rs

/-- Tokens of `keyBinding.toLowerCase().split('+')`. -/
def keyTokens (keyBinding : String) : List String :=
  (splitPlus (keyBinding.data.map Char.toLower)).map (fun cs => String.mk cs)

/-- Source `RobotService.simulateKeyPress`: lowercase, split on `+`; with more
than one token, press every modifier in listed order, tap the main key, then
release every modifier (again in listed order, by the same `forEach`);
otherwise tap the original string. -/
def simulateKeyPress (keyBinding : String) : List KeyAction :=
  let keys := keyTokens keyBinding
  if 1 < keys.length then
    let modifiers := keys.dropLast
    let mainKey := keys.getD (keys.length - 1) ""
    modifiers.map KeyAction.keyDown ++ [KeyAction.keyTap mainKey] ++
      modifiers.map KeyAction.keyUp
  else [KeyAction.keyTap keyBinding]

/-- Modelled from the spec (for comparison only): same pulse but with the
modifiers released in reverse of the listed order. -/
def simulateKeyPressSpec (keyBinding : String) : List KeyAction :=
  let keys := keyTokens keyBinding
  if 1 < keys.length then
    let modifiers := keys.dropLast
    let mainKey := keys.getD (keys.length - 1) ""
    modifiers.map KeyAction.keyDown ++ [KeyAction.keyTap mainKey] ++
      modifiers.reverse.map KeyAction.keyUp
  else [KeyAction.keyTap keyBinding]

/-- Guard of the `detectGesture` loop on one check result: `detected` and the
confidence strictly above the threshold (false when the check itself failed). -/
def checkPasses : Option (Bool × ℚ) → Bool
  | some r => r.1 && decide (gestureThreshold < r.2)
  | none => false

/-- Key released by a `KeyAction`, if any. -/
def upKey : KeyAction → Option String
  | KeyAction.keyUp k => some k
  | _ => none

/-- Key pressed down by a `KeyAction`, if any. -/
def downKey : KeyAction → Option String
  | KeyAction.keyDown k => some k
  | _ => none

/-- Key actuated by a service action, if any. -/
def actKey : SvcAction → Option String
  | SvcAction.actuate k => some k
  | _ => none

/-- Landmark set of an open palm: every finger tip above its PIP joint and the
thumb tip to the right of its MCP joint. -/
def lmPalm : List Landmark := (List.range 21).map (fun i =>
  { x := if i = 4 then 1 else 0,
    y := if i = 6 ∨ i = 10 ∨ i = 14 ∨ i = 18 then 1 else 0, z := 0 })

/-- Landmark set with exactly the index and ring fingers extended: no built-in
gesture check clears the threshold on it. -/
def lmNoMatch : List Landmark := (List.range 21).map (fun i =>
  { x := 0, y := if i = 6 ∨ i = 14 then 1 else 0, z := 0 })

/-- Malformed landmark set: only 20 points. -/
def lmShort : List Landmark := List.replicate 20 { x := 0, y := 0, z := 0 }

/-- Finger states of `lmNoMatch`. -/
def fsNoMatch : List FingerState :=
  [⟨"thumb", false⟩, ⟨"index", true⟩, ⟨"middle", false⟩, ⟨"ring", true⟩, ⟨"pinky", false⟩]

/-- A fist classification sample for the right hand. -/
def gFist : GestureResult := ⟨"fist", mkRat 95 100, "Right"⟩

/-- Stabilizer state after three consistent fist frames: `fist` is the last
emitted stable type. -/
def sAfterFist : StabState := ⟨[gFist, gFist, gFist], some "fist"⟩

/-- Keybinding mapping the fist gesture (any hand) to the space key. -/
def bSpace : Keybinding := ⟨1, "fist", "space", "hold space", true, "any"⟩

/-- Keybinding mapping the open-palm gesture (any hand) to the `b` key. -/
def bPalmB : Keybinding := ⟨2, "open_palm", "b", "press b", true, "any"⟩

/-- Service state in an Active session: the repeat interval (timer 0) is bound to
`bSpace` and the active gesture is `fist`. -/
def sActive : ServiceState :=
  { activeGesture := some "fist", activeKeyInterval := some (0, bSpace),
    activeBindings := buildActiveBindings [bSpace, bPalmB],
    isServiceActive := true, timerCounter := 1 }

/-- Idle service state with `bSpace` installed. -/
def sIdle : ServiceState :=
  { activeGesture := none, activeKeyInterval := none,
    activeBindings := buildActiveBindings [bSpace],
    isServiceActive := true, timerCounter := 0 }

/-- First of two enabled bindings sharing the `fist` gesture type. -/
def bFistA : Keybinding := ⟨10, "fist", "a", "first", true, "any"⟩

/-- Second of two enabled bindings sharing the `fist` gesture type. -/
def bFistB : Keybinding := ⟨11, "fist", "b", "second", true, "any"⟩

theorem ratSub_eq (a b : ℚ) : ratSub a b = a - b := by
  have ha : ((a.den : ℚ)) ≠ 0 := by positivity
  have hb : ((b.den : ℚ)) ≠ 0 := by positivity
  rw [ratSub, Rat.mkRat_eq_divInt, Rat.divInt_eq_div]
  conv_rhs => rw [← Rat.num_div_den a, ← Rat.num_div_den b]
  push_cast
  field_simp
  ring

theorem ratMul_eq (a b : ℚ) : ratMul a b = a * b := by
  have ha : ((a.den : ℚ)) ≠ 0 := by positivity
  have hb : ((b.den : ℚ)) ≠ 0 := by positivity
  rw [ratMul, Rat.mkRat_eq_divInt, Rat.divInt_eq_div]
  conv_rhs => rw [← Rat.num_div_den a, ← Rat.num_div_den b]
  push_cast
  field_simp

theorem ratAdd_eq (a b : ℚ) : ratAdd a b = a + b := by
  have ha : ((a.den : ℚ)) ≠ 0 := by positivity
  have hb : ((b.den : ℚ)) ≠ 0 := by positivity
  rw [ratAdd, Rat.mkRat_eq_divInt, Rat.divInt_eq_div]
  conv_rhs => rw [← Rat.num_div_den a, ← Rat.num_div_den b]
  push_cast
  field_simp

theorem buildActiveBindings_foldl (bindings : List Keybinding)
    (m : String → Option Keybinding) (g : String) :
    (bindings.foldl
      (fun m b => if b.enabled = true then fun g' => if g' = b.gesture then some b else m g' else m)
      m) g =
      match bindings.reverse.find? (fun b => b.enabled && b.gesture == g) with
      | some b => some b
      | none => m g := by
  induction bindings generalizing m with
  | nil => rfl
  | cons bk bks ihb =>
      rw [List.foldl_cons, ihb, List.reverse_cons, List.find?_append]
      rcases hfind : bks.reverse.find? (fun b => b.enabled && b.gesture == g) with _ | b'
      · by_cases hb : bk.enabled = true
        · by_cases hg : g = bk.gesture
          · subst hg
            simp [hfind, hb]
          · have hg' : bk.gesture ≠ g := fun h => hg h.symm
            have hpb : (bk.enabled && bk.gesture == g) = false := by
              simp only [hb, Bool.true_and, beq_eq_false_iff_ne, ne_eq]
              exact hg'
            simp [hfind, hb, hg, hg', hpb]
        · have hpb : (bk.enabled && bk.gesture == g) = false := by
            simp [Bool.and_eq_false_iff]
            intro h
            exact absurd h hb
          simp [hfind, hb, hpb]
      · simp [hfind]

theorem buildActiveBindings_eq_find (bindings : List Keybinding) (g : String) :
    buildActiveBindings bindings g =
      match bindings.reverse.find? (fun b => b.enabled && b.gesture == g) with
      | some b => some b
      | none => none := by
  rw [buildActiveBindings, buildActiveBindings_foldl]

/-- C1 counterexample: with an Active session on `fist`/`space`, pushing a
binding set that no longer contains the bound keybinding (deletion), or
switching the active profile, leaves the repeat interval alive and the next
tick still actuates the old binding — the controller is not forced to Idle. -/
theorem C1_counterexample :
    (updateActiveBindings sActive []).activeKeyInterval = some (0, bSpace) ∧
    tickActions (updateActiveBindings sActive []) = [SvcAction.actuate "space"] ∧
    (setActiveProfileService sActive []).activeKeyInterval = some (0, bSpace) ∧
    tickActions (setActiveProfileService sActive []) = [SvcAction.actuate "space"] :=
  ⟨rfl, rfl, rfl, rfl⟩

/-- C1 (amended): replacing the binding set — on keybinding deletion or disabling
or on a profile switch — never touches the actuation session: the repeat
interval, its captured binding, the active gesture and the next tick's
actuation are all unchanged; the controller leaves Active only through a later
gesture event or an explicit service stop. -/
theorem C1_binding_replacement_keeps_session (s : ServiceState) (bindings : List Keybinding) :
    (updateActiveBindings s bindings).activeKeyInterval = s.activeKeyInterval ∧
    (updateActiveBindings s bindings).activeGesture = s.activeGesture ∧
    tickActions (updateActiveBindings s bindings) = tickActions s ∧
    (setActiveProfileService s bindings).activeKeyInterval = s.activeKeyInterval ∧
    tickActions (setActiveProfileService s bindings) = tickActions s :=
  ⟨rfl, rfl, rfl, rfl, rfl⟩

/-- C10: when a frame yields gesture samples for two (or more) hands, the
stabilizer update is exactly the update on the first-listed sample alone, so
the emitted stable-gesture stream is independent of the second hand's sample. -/
theorem C10_second_hand_ignored (s : StabState) (g1 g2 : GestureResult)
    (rest : List GestureResult) :
    updateGestureHistory s (g1 :: g2 :: rest) = updateGestureHistory s [g1] := rfl

/-- C6 counterexample: with two enabled bindings for the same gesture type, the
resolver returns the second (last) one, not the first as the claim states. -/
theorem C6_counterexample :
    resolveBinding [bFistA, bFistB] "fist" "left" = some bFistB ∧
    bFistB ≠ bFistA ∧
    resolveBindingSpec [bFistA, bFistB] "fist" "left" = some bFistA := by
  refine ⟨rfl, by decide, rfl⟩

/-- C6 (amended): the resolver keeps, per gesture type, the LAST enabled binding
in list order (`Map.set` overwrites); it returns that binding when its hand
constraint is `any` or equals the event's handedness, and returns none
otherwise — it never falls back to an earlier binding of the same gesture. -/
theorem C6_resolver_last_match_wins (bindings : List Keybinding) (gesture hand : String) :
    resolveBinding bindings gesture hand =
      match bindings.reverse.find? (fun b => b.enabled && b.gesture == gesture) with
      | none => none
      | some b => if b.hand ≠ "any" ∧ b.hand ≠ hand then none else some b := by
  rw [resolveBinding, buildActiveBindings_eq_find]
  rcases hf : bindings.reverse.find? (fun b => b.enabled && b.gesture == gesture) with _ | b <;>
    simp [hf]

/-- C5 counterexample: for `ctrl+shift+a` one pulse releases the modifiers in
listed order (`ctrl` before `shift`), not in reverse order as the claim states. -/
theorem C5_counterexample :
    simulateKeyPress "ctrl+shift+a" =
      [KeyAction.keyDown "ctrl", KeyAction.keyDown "shift", KeyAction.keyTap "a",
       KeyAction.keyUp "ctrl", KeyAction.keyUp "shift"] ∧
    simulateKeyPress "ctrl+shift+a" ≠ simulateKeyPressSpec "ctrl+shift+a" := by
  exact ⟨by decide, by decide⟩

theorem filterMap_downKey_keyDown (l : List String) :
    (l.map KeyAction.keyDown).filterMap downKey = l := by
  induction l with
  | nil => rfl
  | cons k ks ihk => simp [downKey, ihk]

theorem filterMap_downKey_keyUp (l : List String) :
    (l.map KeyAction.keyUp).filterMap downKey = [] := by
  induction l with
  | nil => rfl
  | cons k ks ihk => simp [downKey, ihk]

theorem filterMap_upKey_keyUp (l : List String) :
    (l.map KeyAction.keyUp).filterMap upKey = l := by
  induction l with
  | nil => rfl
  | cons k ks ihk => simp [upKey, ihk]

theorem filterMap_upKey_keyDown (l : List String) :
    (l.map KeyAction.keyDown).filterMap upKey = [] := by
  induction l with
  | nil => rfl
  | cons k ks ihk => simp [upKey, ihk]

/-- C5 (amended): for every key combo with at least one modifier, a single pulse
presses each modifier in listed order, taps the main key (last token), then
releases each modifier in the SAME listed order (not reverse): the sequence of
pressed-down modifier keys equals the sequence of released ones. -/
theorem C5_release_in_listed_order (keyBinding : String)
    (h : 1 < (keyTokens keyBinding).length) :
    simulateKeyPress keyBinding =
      (keyTokens keyBinding).dropLast.map KeyAction.keyDown ++
      [KeyAction.keyTap ((keyTokens keyBinding).getD ((keyTokens keyBinding).length - 1) "")] ++
      (keyTokens keyBinding).dropLast.map KeyAction.keyUp ∧
    (simulateKeyPress keyBinding).filterMap downKey = (keyTokens keyBinding).dropLast ∧
    (simulateKeyPress keyBinding).filterMap upKey = (keyTokens keyBinding).dropLast := by
  have he : simulateKeyPress keyBinding =
      (keyTokens keyBinding).dropLast.map KeyAction.keyDown ++
      [KeyAction.keyTap ((keyTokens keyBinding).getD ((keyTokens keyBinding).length - 1) "")] ++
      (keyTokens keyBinding).dropLast.map KeyAction.keyUp := by
    rw [simulateKeyPress]
    simp [h]
  refine ⟨he, ?_, ?_⟩ <;>
  · rw [he]
    generalize (keyTokens keyBinding).dropLast = l
    simp only [List.filterMap_append, filterMap_downKey_keyDown, filterMap_downKey_keyUp,
      filterMap_upKey_keyUp, filterMap_upKey_keyDown, List.filterMap_cons, downKey, upKey,
      List.filterMap_nil, List.append_nil, List.nil_append]

/-- C5 amended claim at the concrete combo `ctrl+shift+a`. -/
theorem C5_release_in_listed_order_witness :
    simulateKeyPress "ctrl+shift+a" =
      (keyTokens "ctrl+shift+a").dropLast.map KeyAction.keyDown ++
      [KeyAction.keyTap ((keyTokens "ctrl+shift+a").getD
        ((keyTokens "ctrl+shift+a").length - 1) "")] ++
      (keyTokens "ctrl+shift+a").dropLast.map KeyAction.keyUp ∧
    (simulateKeyPress "ctrl+shift+a").filterMap downKey = (keyTokens "ctrl+shift+a").dropLast ∧
    (simulateKeyPress "ctrl+shift+a").filterMap upKey = (keyTokens "ctrl+shift+a").dropLast :=
  C5_release_in_listed_order "ctrl+shift+a" (by decide)

/-- C7 counterexample: on the Idle-to-Active transition the step emits only the
timer start — no actuation pulse is issued at session start; the first pulse
comes from the first interval tick. -/
theorem C7_counterexample :
    (handleGestureDetected sIdle (some "fist") "right").2 = [SvcAction.startTimer 0 bSpace] ∧
    (handleGestureDetected sIdle (some "fist") "right").2.filterMap actKey = [] ∧
    tickActions (handleGestureDetected sIdle (some "fist") "right").1 =
      [SvcAction.actuate "space"] := by
  refine ⟨by decide, by decide, by decide⟩

/-- C7 (amended): `handleGestureDetected` itself never issues an actuation call
for any state and event; actuation pulses happen only when the 100 ms repeat
interval fires (`tickActions`), so the first pulse of a session occurs only
after the first interval elapses. -/
theorem C7_no_pulse_at_session_start (s : ServiceState) (gesture : Option String)
    (hand : String) :
    ((handleGestureDetected s gesture hand).2.filterMap actKey) = [] := by
  rw [handleGestureDetected]
  by_cases h1 : s.isServiceActive = false
  · simp [h1]
  · simp only [h1, if_false]
    by_cases h2 : gesture = s.activeGesture
    · simp [h2]
    · simp only [h2, if_false]
      have hstop : ((stopGestureKeyPress s).2.filterMap actKey) = [] := by
        rw [stopGestureKeyPress]
        rcases s.activeKeyInterval with _ | ib <;> simp [actKey]
      rcases gesture with _ | g
      · exact hstop
      · rcases hb : (stopGestureKeyPress s).1.activeBindings g with _ | binding
        · simp [hb, hstop]
        · by_cases hh : binding.hand ≠ "any" ∧ binding.hand ≠ hand
          · simp [hb, hh, hstop]
          · simp [hb, hh, List.filterMap_append, hstop, actKey]

/-- C2: at most one actuation session exists; when the stable gesture switches
from bound A to bound B, the step emits exactly stop-then-start — the old
timer's clear precedes the new timer's start in the same step, the new session
replaces the old one, and a subsequent tick actuates only B's binding (the old
timer, having a distinct id, has been cleared and can no longer fire). -/
theorem C2_stop_then_start (s : ServiceState) (A B hand : String)
    (i : Nat) (bA bB : Keybinding)
    (hact : s.isServiceActive = true)
    (hA : s.activeGesture = some A)
    (hlive : s.activeKeyInterval = some (i, bA))
    (hfresh : i < s.timerCounter)
    (hAB : B ≠ A)
    (hbind : s.activeBindings B = some bB)
    (hhand : bB.hand = "any" ∨ bB.hand = hand) :
    (handleGestureDetected s (some B) hand).2 =
      [SvcAction.clearTimer i, SvcAction.startTimer s.timerCounter bB] ∧
    (handleGestureDetected s (some B) hand).1.activeKeyInterval =
      some (s.timerCounter, bB) ∧
    s.timerCounter ≠ i ∧
    tickActions (handleGestureDetected s (some B) hand).1 =
      [SvcAction.actuate bB.keyBinding] := by
  have h1 : ¬ s.isServiceActive = false := by simp [hact]
  have h2 : ¬ (some B = s.activeGesture) := by rw [hA]; simp [hAB]
  have hstop1 : (stopGestureKeyPress s).1 =
      { s with activeKeyInterval := none, activeGesture := none } := by
    rw [stopGestureKeyPress, hlive]
  have hstop2 : (stopGestureKeyPress s).2 = [SvcAction.clearTimer i] := by
    rw [stopGestureKeyPress, hlive]
  have hb' : (stopGestureKeyPress s).1.activeBindings B = some bB := by
    rw [hstop1]; exact hbind
  have hh : ¬ (bB.hand ≠ "any" ∧ bB.hand ≠ hand) := by
    rcases hhand with h | h <;> simp [h]
  have hmain : handleGestureDetected s (some B) hand =
      ({ (stopGestureKeyPress s).1 with
          activeGesture := some B,
          activeKeyInterval := some ((stopGestureKeyPress s).1.timerCounter, bB),
          timerCounter := (stopGestureKeyPress s).1.timerCounter + 1 },
        (stopGestureKeyPress s).2 ++ [SvcAction.startTimer (stopGestureKeyPress s).1.timerCounter bB]) := by
    rw [handleGestureDetected, if_neg h1, if_neg h2]
    simp only [hb', if_neg hh]
  have htc : (stopGestureKeyPress s).1.timerCounter = s.timerCounter := by
    rw [hstop1]
  refine ⟨?_, ?_, ?_, ?_⟩
  · rw [hmain, hstop2, htc]
    simp
  · rw [hmain]
    simp [htc]
  · omega
  · rw [hmain]
    simp [tickActions]

/-- C2 claim at a concrete instance: active fist session (timer 0) switching to
a bound open-palm gesture. -/
theorem C2_stop_then_start_witness :
    (handleGestureDetected sActive (some "open_palm") "left").2 =
      [SvcAction.clearTimer 0, SvcAction.startTimer sActive.timerCounter bPalmB] ∧
    (handleGestureDetected sActive (some "open_palm") "left").1.activeKeyInterval =
      some (sActive.timerCounter, bPalmB) ∧
    sActive.timerCounter ≠ 0 ∧
    tickActions (handleGestureDetected sActive (some "open_palm") "left").1 =
      [SvcAction.actuate bPalmB.keyBinding] :=
  C2_stop_then_start sActive "fist" "open_palm" "left" 0 bSpace bPalmB rfl rfl rfl
    (by decide) (by decide) (by decide) (Or.inl rfl)


theorem firstPassing_isSome (hand : String) (checks : List (String × Option (Bool × ℚ)))
    (h : ∀ p ∈ checks, p.2.isSome) : (firstPassing hand checks).isSome := by
  induction checks with
  | nil => rfl
  | cons c rest ih =>
      obtain ⟨ty, chk⟩ := c
      have hc : chk.isSome := h (ty, chk) (List.mem_cons_self _ _)
      rcases hchk : chk with _ | r
      · rw [hchk] at hc
        exact absurd hc (by simp)
      · simp only [firstPassing, hchk, Option.bind_eq_bind, Option.some_bind]
        by_cases hp : r.1 = true ∧ gestureThreshold < r.2
        · simp [hp]
        · simp only [hp, if_false]
          exact ih (fun p hp' => h p (List.mem_cons_of_mem _ hp'))

/-- C8: finger-state extraction fails exactly on malformed input. With fewer than
21 landmarks the extraction signals the failure (the thrown `TypeError`, caught
upstream: the frame is discarded and no gesture is produced), and with 21 or
more landmarks it always returns the five boolean finger flags and
classification always completes. -/
theorem C8_invalid_landmark_handling (landmarks : List Landmark) (hand : String) :
    (landmarks.length < 21 →
      getFingerStates landmarks = none ∧ detectGesture landmarks hand = none) ∧
    (21 ≤ landmarks.length →
      ∃ fs, getFingerStates landmarks = some fs ∧ fs.length = 5 ∧
        (detectGesture landmarks hand).isSome) := by
  constructor
  · intro hlen
    have h20 : landmarks.get? 20 = none := by
      rw [List.get?_eq_none]
      omega
    have hpk : isFingerExtended landmarks 20 18 = none := by
      rw [isFingerExtended, h20]
      rfl
    have hfs : getFingerStates landmarks = none := by
      simp only [getFingerStates, hpk, Option.bind_eq_bind, Option.none_bind, Option.bind_none]
    refine ⟨hfs, ?_⟩
    simp only [detectGesture, hfs, Option.bind_eq_bind, Option.none_bind]
  · intro hlen
    have h0 : landmarks.get? 0 = some (landmarks.get ⟨0, by omega⟩) := List.get?_eq_get _
    have h2 : landmarks.get? 2 = some (landmarks.get ⟨2, by omega⟩) := List.get?_eq_get _
    have h4 : landmarks.get? 4 = some (landmarks.get ⟨4, by omega⟩) := List.get?_eq_get _
    have h6 : landmarks.get? 6 = some (landmarks.get ⟨6, by omega⟩) := List.get?_eq_get _
    have h8 : landmarks.get? 8 = some (landmarks.get ⟨8, by omega⟩) := List.get?_eq_get _
    have h10 : landmarks.get? 10 = some (landmarks.get ⟨10, by omega⟩) := List.get?_eq_get _
    have h12 : landmarks.get? 12 = some (landmarks.get ⟨12, by omega⟩) := List.get?_eq_get _
    have h14 : landmarks.get? 14 = some (landmarks.get ⟨14, by omega⟩) := List.get?_eq_get _
    have h16 : landmarks.get? 16 = some (landmarks.get ⟨16, by omega⟩) := List.get?_eq_get _
    have h18 : landmarks.get? 18 = some (landmarks.get ⟨18, by omega⟩) := List.get?_eq_get _
    have h20 : landmarks.get? 20 = some (landmarks.get ⟨20, by omega⟩) := List.get?_eq_get _
    have h0g : landmarks[0]? = some (landmarks.get ⟨0, by omega⟩) := by
      rw [← List.get?_eq_getElem?]
      exact h0
    have h4g : landmarks[4]? = some (landmarks.get ⟨4, by omega⟩) := by
      rw [← List.get?_eq_getElem?]
      exact h4
    have h8g : landmarks[8]? = some (landmarks.get ⟨8, by omega⟩) := by
      rw [← List.get?_eq_getElem?]
      exact h8
    have hth : isThumbExtended landmarks =
        some (decide ((landmarks.get ⟨2, by omega⟩).x < (landmarks.get ⟨4, by omega⟩).x)) := by
      rw [isThumbExtended, h4, h2]
      rfl
    have hfe : ∀ ti pi (hti : ti < landmarks.length) (hpi : pi < landmarks.length),
        isFingerExtended landmarks ti pi =
          some (decide ((landmarks.get ⟨ti, hti⟩).y < (landmarks.get ⟨pi, hpi⟩).y)) := by
      intro ti pi hti hpi
      rw [isFingerExtended, List.get?_eq_get hti, List.get?_eq_get hpi]
      rfl
    have hfs : getFingerStates landmarks =
        some [⟨"thumb", decide ((landmarks.get ⟨2, by omega⟩).x < (landmarks.get ⟨4, by omega⟩).x)⟩,
              ⟨"index", decide ((landmarks.get ⟨8, by omega⟩).y < (landmarks.get ⟨6, by omega⟩).y)⟩,
              ⟨"middle", decide ((landmarks.get ⟨12, by omega⟩).y < (landmarks.get ⟨10, by omega⟩).y)⟩,
              ⟨"ring", decide ((landmarks.get ⟨16, by omega⟩).y < (landmarks.get ⟨14, by omega⟩).y)⟩,
              ⟨"pinky", decide ((landmarks.get ⟨20, by omega⟩).y < (landmarks.get ⟨18, by omega⟩).y)⟩]
        := by
      rw [getFingerStates, hth,
        hfe 8 6 (by omega) (by omega), hfe 12 10 (by omega) (by omega),
        hfe 16 14 (by omega) (by omega), hfe 20 18 (by omega) (by omega)]
      rfl
    refine ⟨_, hfs, rfl, ?_⟩
    simp only [detectGesture, hfs, Option.bind_eq_bind, Option.some_bind]
    apply firstPassing_isSome
    intro p hp
    simp only [gestureChecks, List.mem_cons, List.mem_singleton] at hp
    rcases hp with rfl | rfl | rfl | rfl | rfl | rfl | rfl | rfl | h
    · simp [detectFist]
    · simp [detectOpenPalm]
    · simp [detectPointing]
    · simp [detectPeaceSign]
    · simp [detectThumbsUp, h4g, h0g]
    · simp [detectThumbsDown, h4g, h0g]
    · simp [detectOkSign, h4g, h8g]
    · simp [detectRockOn]
    · cases h

/-- C8 claim at concrete inputs: a 20-point landmark set fails, a 21-point open
palm succeeds. -/
theorem C8_invalid_landmark_handling_witness :
    (getFingerStates lmShort = none ∧ detectGesture lmShort "Right" = none) ∧
    (∃ fs, getFingerStates lmPalm = some fs ∧ fs.length = 5 ∧
      (detectGesture lmPalm "Right").isSome) :=
  ⟨(C8_invalid_landmark_handling lmShort "Right").1 (by decide),
   (C8_invalid_landmark_handling lmPalm "Right").2 (by decide)⟩

theorem firstPassing_eq_some (hand : String) (checks : List (String × Option (Bool × ℚ)))
    (g : GestureResult) (h : firstPassing hand checks = some (some g)) :
    gestureThreshold < g.confidence ∧
      ∃ ty chk r, (ty, chk) ∈ checks ∧ chk = some r ∧ r.1 = true ∧ g.confidence = r.2 := by
  induction checks with
  | nil => simp [firstPassing] at h
  | cons c rest ih =>
      obtain ⟨ty, chk⟩ := c
      rcases hchk : chk with _ | r
      · simp only [firstPassing, hchk, Option.bind_eq_bind, Option.none_bind] at h
        exact Option.noConfusion h
      · simp only [firstPassing, hchk, Option.bind_eq_bind, Option.some_bind] at h
        by_cases hp : r.1 = true ∧ gestureThreshold < r.2
        · rw [if_pos hp] at h
          injection h with h
          injection h with h
          subst h
          exact ⟨hp.2, ty, some r, r, List.mem_cons_self _ _, rfl, hp.1, rfl⟩
        · rw [if_neg hp] at h
          obtain ⟨hlt, ty', chk', r', hm, hce, hrt, hcf⟩ := ih h
          exact ⟨hlt, ty', chk', r', List.mem_cons_of_mem _ hm, hce, hrt, hcf⟩

theorem detectFist_conf (fingers : List FingerState) (r : Bool × ℚ)
    (h : detectFist fingers = some r) (hd : r.1 = true) : r.2 = mkRat 95 100 := by
  rw [detectFist] at h
  injection h with h
  subst h
  simp only [decide_eq_true_eq] at hd
  simp [hd]

theorem detectOpenPalm_conf (fingers : List FingerState) (r : Bool × ℚ)
    (h : detectOpenPalm fingers = some r) (hd : r.1 = true) : r.2 = mkRat 95 100 := by
  rw [detectOpenPalm] at h
  injection h with h
  subst h
  simp only [decide_eq_true_eq] at hd
  simp [hd]

theorem detectPointing_conf (fingers : List FingerState) (r : Bool × ℚ)
    (h : detectPointing fingers = some r) (hd : r.1 = true) : r.2 = mkRat 9 10 := by
  rcases hg : fingers.get? 1 with _ | iF
  · simp only [detectPointing, hg, Option.bind_eq_bind, Option.none_bind] at h
    exact Option.noConfusion h
  · simp only [detectPointing, hg, Option.bind_eq_bind, Option.some_bind] at h
    injection h with h
    subst h
    rw [if_pos (of_decide_eq_true hd)]

theorem detectPeaceSign_conf (fingers : List FingerState) (r : Bool × ℚ)
    (h : detectPeaceSign fingers = some r) (hd : r.1 = true) : r.2 = mkRat 9 10 := by
  rcases hg1 : fingers.get? 1 with _ | iF
  · simp only [detectPeaceSign, hg1, Option.bind_eq_bind, Option.none_bind] at h
    exact Option.noConfusion h
  · rcases hg2 : fingers.get? 2 with _ | mF
    · simp only [detectPeaceSign, hg1, hg2, Option.bind_eq_bind, Option.some_bind,
        Option.none_bind] at h
      exact Option.noConfusion h
    · simp only [detectPeaceSign, hg1, hg2, Option.bind_eq_bind, Option.some_bind] at h
      injection h with h
      subst h
      rw [if_pos (of_decide_eq_true hd)]

theorem detectThumbsUp_conf (fingers : List FingerState) (landmarks : List Landmark)
    (r : Bool × ℚ) (h : detectThumbsUp fingers landmarks = some r) (hd : r.1 = true) :
    r.2 = mkRat 9 10 := by
  rcases hg0 : fingers.get? 0 with _ | tF
  · simp only [detectThumbsUp, hg0, Option.bind_eq_bind, Option.none_bind] at h
    exact Option.noConfusion h
  · rcases hl4 : landmarks.get? 4 with _ | tt
    · simp only [detectThumbsUp, hg0, hl4, Option.bind_eq_bind, Option.some_bind,
        Option.none_bind] at h
      exact Option.noConfusion h
    · rcases hl0 : landmarks.get? 0 with _ | w
      · simp only [detectThumbsUp, hg0, hl4, hl0, Option.bind_eq_bind, Option.some_bind,
          Option.none_bind] at h
        exact Option.noConfusion h
      · simp only [detectThumbsUp, hg0, hl4, hl0, Option.bind_eq_bind, Option.some_bind] at h
        injection h with h
        subst h
        rw [if_pos (of_decide_eq_true hd)]

theorem detectThumbsDown_conf (fingers : List FingerState) (landmarks : List Landmark)
    (r : Bool × ℚ) (h : detectThumbsDown fingers landmarks = some r) (hd : r.1 = true) :
    r.2 = mkRat 9 10 := by
  rcases hg0 : fingers.get? 0 with _ | tF
  · simp only [detectThumbsDown, hg0, Option.bind_eq_bind, Option.none_bind] at h
    exact Option.noConfusion h
  · rcases hl4 : landmarks.get? 4 with _ | tt
    · simp only [detectThumbsDown, hg0, hl4, Option.bind_eq_bind, Option.some_bind,
        Option.none_bind] at h
      exact Option.noConfusion h
    · rcases hl0 : landmarks.get? 0 with _ | w
      · simp only [detectThumbsDown, hg0, hl4, hl0, Option.bind_eq_bind, Option.some_bind,
          Option.none_bind] at h
        exact Option.noConfusion h
      · simp only [detectThumbsDown, hg0, hl4, hl0, Option.bind_eq_bind, Option.some_bind] at h
        injection h with h
        subst h
        rw [if_pos (of_decide_eq_true hd)]

theorem detectOkSign_conf (fingers : List FingerState) (landmarks : List Landmark)
    (r : Bool × ℚ) (h : detectOkSign fingers landmarks = some r) (hd : r.1 = true) :
    r.2 = mkRat 85 100 := by
  rcases hl4 : landmarks.get? 4 with _ | tt
  · simp only [detectOkSign, hl4, Option.bind_eq_bind, Option.none_bind] at h
    exact Option.noConfusion h
  · rcases hl8 : landmarks.get? 8 with _ | it
    · simp only [detectOkSign, hl4, hl8, Option.bind_eq_bind, Option.some_bind,
        Option.none_bind] at h
      exact Option.noConfusion h
    · simp only [detectOkSign, hl4, hl8, Option.bind_eq_bind, Option.some_bind] at h
      injection h with h
      subst h
      rw [if_pos (of_decide_eq_true hd)]

theorem detectRockOn_conf (fingers : List FingerState) (r : Bool × ℚ)
    (h : detectRockOn fingers = some r) (hd : r.1 = true) : r.2 = mkRat 85 100 := by
  rcases hg0 : fingers.get? 0 with _ | f0
  · simp only [detectRockOn, hg0, Option.bind_eq_bind, Option.none_bind] at h
    exact Option.noConfusion h
  · rcases hg1 : fingers.get? 1 with _ | f1
    · simp only [detectRockOn, hg0, hg1, Option.bind_eq_bind, Option.some_bind,
        Option.none_bind] at h
      exact Option.noConfusion h
    · rcases hg2 : fingers.get? 2 with _ | f2
      · simp only [detectRockOn, hg0, hg1, hg2, Option.bind_eq_bind, Option.some_bind,
          Option.none_bind] at h
        exact Option.noConfusion h
      · rcases hg3 : fingers.get? 3 with _ | f3
        · simp only [detectRockOn, hg0, hg1, hg2, hg3, Option.bind_eq_bind, Option.some_bind,
            Option.none_bind] at h
          exact Option.noConfusion h
        · rcases hg4 : fingers.get? 4 with _ | f4
          · simp only [detectRockOn, hg0, hg1, hg2, hg3, hg4, Option.bind_eq_bind,
              Option.some_bind, Option.none_bind] at h
            exact Option.noConfusion h
          · simp only [detectRockOn, hg0, hg1, hg2, hg3, hg4, Option.bind_eq_bind,
              Option.some_bind] at h
            injection h with h
            subst h
            rw [if_pos (of_decide_eq_true hd)]

/-- C9: every gesture sample the classifier emits comes from a check with
`detected = true` and confidence strictly above the 0.8 threshold; under the
built-in checks the emitted confidence is 0.85, 0.9 or 0.95. -/
theorem C9_confidence_above_threshold (landmarks : List Landmark) (hand : String)
    (g : GestureResult) (h : detectGesture landmarks hand = some (some g)) :
    gestureThreshold < g.confidence ∧
      (g.confidence = mkRat 85 100 ∨ g.confidence = mkRat 9 10 ∨
        g.confidence = mkRat 95 100) := by
  rcases hfs : getFingerStates landmarks with _ | fingers
  · rw [detectGesture, hfs] at h
    simp at h
  · rw [detectGesture, hfs] at h
    simp only [Option.bind_eq_bind, Option.some_bind] at h
    obtain ⟨hlt, ty, chk, r, hmem, hce, hrt, hcf⟩ := firstPassing_eq_some hand _ g h
    refine ⟨hlt, ?_⟩
    rw [hcf]
    simp only [gestureChecks, List.mem_cons, List.not_mem_nil, or_false,
      Prod.mk.injEq] at hmem
    rcases hmem with hm | hm | hm | hm | hm | hm | hm | hm <;> obtain ⟨rfl, rfl⟩ := hm
    · exact Or.inr (Or.inr (detectFist_conf fingers r hce hrt))
    · exact Or.inr (Or.inr (detectOpenPalm_conf fingers r hce hrt))
    · exact Or.inr (Or.inl (detectPointing_conf fingers r hce hrt))
    · exact Or.inr (Or.inl (detectPeaceSign_conf fingers r hce hrt))
    · exact Or.inr (Or.inl (detectThumbsUp_conf fingers landmarks r hce hrt))
    · exact Or.inr (Or.inl (detectThumbsDown_conf fingers landmarks r hce hrt))
    · exact Or.inl (detectOkSign_conf fingers landmarks r hce hrt)
    · exact Or.inl (detectRockOn_conf fingers r hce hrt)

/-- C9 claim at a concrete input: the open-palm sample has confidence 0.95. -/
theorem C9_confidence_above_threshold_witness :
    gestureThreshold < (⟨"open_palm", mkRat 95 100, "Right"⟩ : GestureResult).confidence ∧
      ((⟨"open_palm", mkRat 95 100, "Right"⟩ : GestureResult).confidence = mkRat 85 100 ∨
        (⟨"open_palm", mkRat 95 100, "Right"⟩ : GestureResult).confidence = mkRat 9 10 ∨
        (⟨"open_palm", mkRat 95 100, "Right"⟩ : GestureResult).confidence = mkRat 95 100) :=
  C9_confidence_above_threshold lmPalm "Right" ⟨"open_palm", mkRat 95 100, "Right"⟩ (by decide)

theorem firstPassing_all_fail (hand : String) (checks : List (String × Option (Bool × ℚ)))
    (hsome : ∀ p ∈ checks, p.2.isSome = true)
    (hno : ∀ p ∈ checks, checkPasses p.2 = false) :
    firstPassing hand checks = some none := by
  induction checks with
  | nil => rfl
  | cons c rest ih =>
      obtain ⟨ty, chk⟩ := c
      have hs : chk.isSome = true := hsome (ty, chk) (List.mem_cons_self _ _)
      have hn : checkPasses chk = false := hno (ty, chk) (List.mem_cons_self _ _)
      rcases hchk : chk with _ | r
      · rw [hchk] at hs
        exact absurd hs (by simp)
      · rw [hchk] at hn
        have hcond : ¬ (r.1 = true ∧ gestureThreshold < r.2) := by
          intro hc
          simp only [checkPasses, hc.1, hc.2, decide_True, Bool.and_self] at hn
          exact absurd hn (by simp)
        simp only [firstPassing, hchk, Option.bind_eq_bind, Option.some_bind, if_neg hcond]
        exact ih (fun p hp => hsome p (List.mem_cons_of_mem _ hp))
          (fun p hp => hno p (List.mem_cons_of_mem _ hp))

/-- C4 counterexample: a well-formed frame in which no check clears the
threshold yields the source's `null` — not a GestureSample with type `none`
and confidence 0 — and frames without gestures never reach the stabilizer, so
three of them after an established `fist` stable type emit nothing (no release
event of type `none`). -/
theorem C4_counterexample :
    detectGesture lmNoMatch "Right" = some none ∧
    detectGesture lmNoMatch "Right" ≠
      some (some { type := "none", confidence := 0, handedness := "Right" }) ∧
    (processFrames sAfterFist [[], [], []]).2 = [none, none, none] ∧
    (processFrames sAfterFist [[], [], []]).1 = sAfterFist := by
  refine ⟨by decide, by decide, by decide, by decide⟩

/-- C4 (amended): a frame whose landmarks are well-formed but in which no
gesture check clears the threshold produces no gesture sample at all (the
source returns `null`); a frame with no samples leaves the stabilizer state
untouched and emits nothing, so consecutive no-match frames never produce a
release StableGestureEvent of type `none`. -/
theorem C4_no_none_sample (landmarks : List Landmark) (hand : String)
    (fs : List FingerState) (s : StabState)
    (hfs : getFingerStates landmarks = some fs)
    (hsome : ∀ p ∈ gestureChecks fs landmarks, p.2.isSome = true)
    (hno : ∀ p ∈ gestureChecks fs landmarks, checkPasses p.2 = false) :
    detectGesture landmarks hand = some none ∧
    updateGestureHistory s [] = (s, none) := by
  constructor
  · rw [detectGesture, hfs]
    simp only [Option.bind_eq_bind, Option.some_bind]
    exact firstPassing_all_fail hand _ hsome hno
  · rfl

/-- C4 amended claim at concrete inputs: the index-and-ring frame matches no
check, and the empty-frame stabilizer step is the identity. -/
theorem C4_no_none_sample_witness :
    detectGesture lmNoMatch "Right" = some none ∧
    updateGestureHistory sAfterFist [] = (sAfterFist, none) :=
  C4_no_none_sample lmNoMatch "Right" fsNoMatch sAfterFist (by decide) (by decide) (by decide)

/-- C3: for a 5-frame run from the fresh stabilizer whose last 3 samples share
type T, exactly one StableGestureEvent of type T is emitted, and it is emitted
at the step that processes the 3rd consistent frame — step 3, 4 or 5 (indices
2, 3, 4) according to how far the trailing run of T extends — never earlier. -/
theorem C3_stable_event_on_third_consistent_frame (g1 g2 g3 g4 g5 : GestureResult)
    (T : String) (h3 : g3.type = T) (h4 : g4.type = T) (h5 : g5.type = T)
    (hT : T ≠ "none") :
    (∃ e, ((processFrames initialStabState [[g1], [g2], [g3], [g4], [g5]]).2).get?
        (if g2.type = T then (if g1.type = T then 2 else 3) else 4) = some (some e) ∧
        e.type = T) ∧
    (∀ j e, ((processFrames initialStabState [[g1], [g2], [g3], [g4], [g5]]).2).get? j =
        some (some e) → e.type = T →
        j = (if g2.type = T then (if g1.type = T then 2 else 3) else 4)) := by
  by_cases hb2 : g2.type = T
  · by_cases hb1 : g1.type = T
    · have hrun : (processFrames initialStabState [[g1], [g2], [g3], [g4], [g5]]).2 =
          [none, none, some g1, none, none] := by
        simp [processFrames, updateGestureHistory, smoothGestureDetection, maxHistory,
          initialStabState, h3, h4, h5, hb1, hb2]
      rw [hrun, if_pos hb2, if_pos hb1]
      constructor
      · exact ⟨g1, rfl, hb1⟩
      · intro j e hj he
        rcases j with _ | _ | _ | _ | _ | j <;> simp_all
    · have hb1' : T ≠ g1.type := Ne.symm hb1
      have hrun : (processFrames initialStabState [[g1], [g2], [g3], [g4], [g5]]).2 =
          [none, none, none, some g2, none] := by
        simp [processFrames, updateGestureHistory, smoothGestureDetection, maxHistory,
          initialStabState, h3, h4, h5, hb1, hb1', hb2]
      rw [hrun, if_pos hb2, if_neg hb1]
      constructor
      · exact ⟨g2, rfl, hb2⟩
      · intro j e hj he
        rcases j with _ | _ | _ | _ | _ | j <;> simp_all
  · have hb2' : T ≠ g2.type := Ne.symm hb2
    by_cases hb1 : g1.type = T
    · have hrun : (processFrames initialStabState [[g1], [g2], [g3], [g4], [g5]]).2 =
          [none, none, none, none, some g3] := by
        simp [processFrames, updateGestureHistory, smoothGestureDetection, maxHistory,
          initialStabState, h3, h4, h5, hb1, hb2, hb2']
      rw [hrun, if_neg hb2]
      constructor
      · exact ⟨g3, rfl, h3⟩
      · intro j e hj he
        rcases j with _ | _ | _ | _ | _ | j <;> simp_all
    · have hb1' : T ≠ g1.type := Ne.symm hb1
      have hrun : (processFrames initialStabState [[g1], [g2], [g3], [g4], [g5]]).2 =
          [none, none, none, none, some g3] := by
        simp [processFrames, updateGestureHistory, smoothGestureDetection, maxHistory,
          initialStabState, h3, h4, h5, hb1, hb1', hb2, hb2']
      rw [hrun, if_neg hb2]
      constructor
      · exact ⟨g3, rfl, h3⟩
      · intro j e hj he
        rcases j with _ | _ | _ | _ | _ | j <;> simp_all

/-- C3 claim at a concrete run: five identical fist samples from the fresh
stabilizer emit the event exactly at the third frame. -/
theorem C3_stable_event_on_third_consistent_frame_witness :
    (∃ e, ((processFrames initialStabState
        [[gFist], [gFist], [gFist], [gFist], [gFist]]).2).get?
        (if gFist.type = "fist" then (if gFist.type = "fist" then 2 else 3) else 4) =
        some (some e) ∧ e.type = "fist") ∧
    (∀ j e, ((processFrames initialStabState
        [[gFist], [gFist], [gFist], [gFist], [gFist]]).2).get? j =
        some (some e) → e.type = "fist" →
        j = (if gFist.type = "fist" then (if gFist.type = "fist" then 2 else 3) else 4)) :=
  C3_stable_event_on_third_consistent_frame gFist gFist gFist gFist gFist "fist" rfl rfl rfl
    (by decide)
